import Mathlib

/-!
Verification of the CSA prediction-engine client against its specification.

The development shallowly embeds the task-classification, job-dispatch and
polling subsystem of the `csa_prediction_engine` Python package:

* `src/helpers/_postmaster.py` — the submission decorator (`postJobWrapper`,
  the body of the wrapper produced by `_create_post_job_decorator`), the
  binary-variant map `_BINARY_FUNCTION_MAP`, and the polling routine
  `_get_results`;
* `src/bin/_workers.py` — the single-task executor `_execute_prediction`;
* `src/bin/multi_tasks.py` — the batch grid functions `predict_grid` and
  `predict_grid_singularity`;
* `src/api_client.py` — the dispatch table `_TASK_MAP` and `predict_psr`
  with its optional prediction receipt;
* `src/psrlib.py` — the legacy `predict_grid` and `predict_maxfit` entries.

Network effects are embedded as explicit oracle arguments (the wire calls
`post_job` and `poll_for_results` of `_payload_handler`, a module external to
the analysed sources); each embedded function additionally reports how many
times it invoked an oracle, so "performs zero network calls" is a statement
about a returned counter.  Fallible Python code is embedded in `Except`:
a function that can raise returns `Except.error`, one that returns normally
returns `Except.ok`.
-/

namespace CsaPredictionEngine

/-- The function-family enumeration `PSRFunction` of `csa_common_lib`
(external to the analysed sources).  The constructors are the members the
analysed sources use: the four base families, their binary counterparts, and
`PREDICT` (used by `multi_tasks.predict`). -/
inductive PSRFunction where
  | PREDICT
  | PSR
  | PSR_BINARY
  | MAXFIT
  | MAXFIT_BINARY
  | GRID
  | GRID_BINARY
  | GRID_SINGULARITY
  | GRID_SINGULARITY_BINARY
deriving DecidableEq, BEq, Repr

/-- A numeric array: an opaque buffer of numbers together with its shape
metadata, as the spec prescribes for the embedding of `numpy` arrays.  Only
the shape is ever inspected by the analysed code. -/
structure NDArray where
  rows : Nat
  cols : Nat
  data : List Int
deriving DecidableEq, Repr

/-- An options bag (`PredictionOptions` / `MaxFitOptions` / `GridOptions`):
per the spec an opaque key-value dictionary carried in the `options`
attribute and passed through verbatim.  Values are embedded as integers. -/
structure POptions where
  options : List (String × Int)
deriving DecidableEq, Repr

/-- A details dictionary (`yhat_details` / `output_details`): string keys to
numeric values. -/
abbrev Details := List (String × Int)

/-- Python `dict.get(k, None)` on a details dictionary. -/
def dictGet (d : Details) (k : String) : Option Int :=
  (d.find? (fun p => p.1 == k)).map Prod.snd

/-- Errors the embedded code can raise.  `attributeError` and
`typeErrorNotCallable` are the Python `AttributeError` and the
`TypeError` raised by calling `None`; `invalidHandleError`,
`unroutableTaskError` and `invalidShapeError` are the error names used by
the specification's taxonomy. -/
inductive PyError where
  | attributeError
  | typeErrorNotCallable
  | invalidHandleError
  | unroutableTaskError
  | invalidShapeError
deriving DecidableEq, Repr

/-- `_BINARY_FUNCTION_MAP` of `src/helpers/_postmaster.py` (lines 47-52):
the dictionary from base function types to their binary equivalents,
embedded as an association list in source order. -/
def _BINARY_FUNCTION_MAP : List (PSRFunction × PSRFunction) :=
  [(PSRFunction.PSR, PSRFunction.PSR_BINARY),
   (PSRFunction.MAXFIT, PSRFunction.MAXFIT_BINARY),
   (PSRFunction.GRID, PSRFunction.GRID_BINARY),
   (PSRFunction.GRID_SINGULARITY, PSRFunction.GRID_SINGULARITY_BINARY)]

/-- Python `dict.get(key, default)` on the binary function map. -/
def binaryMapGet (key default_ : PSRFunction) : PSRFunction :=
  match _BINARY_FUNCTION_MAP.find? (fun p => p.1 == key) with
  | some p => p.2
  | none => default_

/-- Line 82 of `src/helpers/_postmaster.py`:
`_BINARY_FUNCTION_MAP.get(base_function_type, base_function_type) if
is_binary else base_function_type`. -/
def selectFunctionType (base_function_type : PSRFunction) (is_binary : Bool) :
    PSRFunction :=
  if is_binary then binaryMapGet base_function_type base_function_type
  else base_function_type

/-- The wire payload handed to `post_job`: the three arrays plus the
flattened options dictionary (`convert_ndarray_to_list` is an external
serialization collaborator and is embedded as the identity on the bag). -/
structure SubmitPayload where
  y : NDArray
  X : NDArray
  theta : NDArray
  opts : List (String × Int)
deriving DecidableEq, Repr

/-- What the wrapper around a submission returns, together with its visible
effect: the `(job_id, job_code)` pair handed back to the caller and the
diagnostic line printed to stdout (`none` when nothing was printed). -/
structure SubmitTrace where
  job_id : Option Int
  job_code : Option String
  diagnostic : Option String
deriving DecidableEq, Repr

/-- The wrapper produced by `_create_post_job_decorator` in
`src/helpers/_postmaster.py` (lines 77-97).  `post_job` is the wire-call
oracle of `_payload_handler`, returning `(response, job_id, job_code)`.
The wrapper selects the (binary or base) function type, posts the job,
prints the diagnostic exactly when the response is present while both
`job_id` and `job_code` are `None`, and returns `(job_id, job_code)`.
The body has no `raise` and no fallible operation, so it is embedded as a
total function. -/
def postJobWrapper
    (post_job : PSRFunction → SubmitPayload →
      Option String × (Option Int × Option String))
    (base_function_type : PSRFunction) (function_name : String)
    (y X theta : NDArray) (Options : POptions) (is_binary : Bool) :
    SubmitTrace :=
  let function_type := selectFunctionType base_function_type is_binary
  let r := post_job function_type ⟨y, X, theta, Options.options⟩
  let response := r.1
  let job_id := r.2.1
  let job_code := r.2.2
  let diagnostic :=
    if response.isSome && job_id.isNone && job_code.isNone then
      some ("csanalytics:postmaster:_jobs:" ++ function_name ++ ":"
            ++ response.getD "")
    else none
  ⟨job_id, job_code, diagnostic⟩

/-- `_post_predict_inputs` of `src/helpers/_postmaster.py`: the PSR
submission, i.e. the decorator applied with base family `PSR`. -/
def _post_predict_inputs
    (post_job : PSRFunction → SubmitPayload →
      Option String × (Option Int × Option String))
    (y X theta : NDArray) (Options : POptions) (is_binary : Bool) :
    SubmitTrace :=
  postJobWrapper post_job PSRFunction.PSR "_post_predict_inputs"
    y X theta Options is_binary

/-- `_post_maxfit_inputs` of `src/helpers/_postmaster.py`: the MAXFIT
submission. -/
def _post_maxfit_inputs
    (post_job : PSRFunction → SubmitPayload →
      Option String × (Option Int × Option String))
    (y X theta : NDArray) (Options : POptions) (is_binary : Bool) :
    SubmitTrace :=
  postJobWrapper post_job PSRFunction.MAXFIT "_post_maxfit_inputs"
    y X theta Options is_binary

/-- `_post_grid_inputs` of `src/helpers/_postmaster.py`: the GRID
submission. -/
def _post_grid_inputs
    (post_job : PSRFunction → SubmitPayload →
      Option String × (Option Int × Option String))
    (y X theta : NDArray) (Options : POptions) (is_binary : Bool) :
    SubmitTrace :=
  postJobWrapper post_job PSRFunction.GRID "_post_grid_inputs"
    y X theta Options is_binary

/-- `_post_grid_singularity_inputs` of `src/helpers/_postmaster.py`: the
GRID_SINGULARITY submission. -/
def _post_grid_singularity_inputs
    (post_job : PSRFunction → SubmitPayload →
      Option String × (Option Int × Option String))
    (y X theta : NDArray) (Options : POptions) (is_binary : Bool) :
    SubmitTrace :=
  postJobWrapper post_job PSRFunction.GRID_SINGULARITY
    "_post_grid_singularity_inputs" y X theta Options is_binary

/-- `_get_results` of `src/helpers/_postmaster.py` (lines 232-264).
`poll_for_results` is the wire-call oracle.  The returned `Nat` counts the
invocations of `poll_for_results`.  The body raises nothing, so every path
yields `Except.ok`; the `Except` wrapper only records that a Python callee
could in principle fail. -/
def _get_results (poll_for_results : Int → String → Details)
    (job_id : Option Int) (job_code : Option String) :
    Except PyError (Option Int × Option Details) × Nat :=
  match job_id, job_code with
  | some jid, some jc =>
    let output_details := poll_for_results jid jc
    (Except.ok (dictGet output_details "yhat", some output_details), 1)
  | _, _ => (Except.ok (none, none), 0)

/-- The union return shape of the executors: either the deferred
`(job_id, job_code)` handle or the polled `(yhat, yhat_details)` outcome. -/
inductive TaskResult where
  | handle (job_id : Option Int) (job_code : Option String)
  | outcome (yhat : Option Int) (yhat_details : Option Details)
deriving DecidableEq, Repr

/-- `_execute_prediction` of `src/bin/_workers.py` (lines 38-80): posts the
job through `post_function`, then either polls via
`_postmaster._get_results_worker` (which is defined as `_get_results`) or
returns the handle directly.  `post_function` abstracts the already-bound
submission call (its array, options and binary arguments are closed over);
the `Nat` counts wire `poll_for_results` invocations. -/
def _execute_prediction (post_function : Unit → Option Int × Option String)
    (poll_for_results : Int → String → Details) (poll_results : Bool) :
    Except PyError TaskResult × Nat :=
  let r := post_function ()
  let job_id := r.1
  let job_code := r.2
  if poll_results then
    match _get_results poll_for_results job_id job_code with
    | (Except.ok p, n) => (Except.ok (TaskResult.outcome p.1 p.2), n)
    | (Except.error e, n) => (Except.error e, n)
  else
    (Except.ok (TaskResult.handle job_id job_code), 0)

/-- The full observable run of a batch grid function of
`src/bin/multi_tasks.py`: the returned value, the number of wire
`poll_for_results` calls, and the diagnostic line the submission wrapper
printed (if any). -/
structure MultiGridRun where
  result : Except PyError TaskResult
  pollCalls : Nat
  diagnostic : Option String
deriving Repr

/-- `predict_grid` of `src/bin/multi_tasks.py` (lines 129-173): submits via
`_postmaster._post_grid_inputs(y, X, theta, Options=Options)` (base family
GRID, `is_binary` defaulting to `False`), then polls via
`_postmaster._get_results` when `poll_results` is set, else returns the
handle. -/
def multi_predict_grid
    (post_job : PSRFunction → SubmitPayload →
      Option String × (Option Int × Option String))
    (poll_for_results : Int → String → Details)
    (y X theta : NDArray) (Options : POptions) (poll_results : Bool) :
    MultiGridRun :=
  let tr := _post_grid_inputs post_job y X theta Options false
  if poll_results then
    match _get_results poll_for_results tr.job_id tr.job_code with
    | (Except.ok p, n) => ⟨Except.ok (TaskResult.outcome p.1 p.2), n, tr.diagnostic⟩
    | (Except.error e, n) => ⟨Except.error e, n, tr.diagnostic⟩
  else
    ⟨Except.ok (TaskResult.handle tr.job_id tr.job_code), 0, tr.diagnostic⟩

/-- `predict_grid_singularity` of `src/bin/multi_tasks.py` (lines 176-220):
its body is line-for-line that of `predict_grid` — it also submits via
`_postmaster._post_grid_inputs` (family GRID, not GRID_SINGULARITY) and
aggregates results the same way. -/
def multi_predict_grid_singularity
    (post_job : PSRFunction → SubmitPayload →
      Option String × (Option Int × Option String))
    (poll_for_results : Int → String → Details)
    (y X theta : NDArray) (Options : POptions) (poll_results : Bool) :
    MultiGridRun :=
  let tr := _post_grid_inputs post_job y X theta Options false
  if poll_results then
    match _get_results poll_for_results tr.job_id tr.job_code with
    | (Except.ok p, n) => ⟨Except.ok (TaskResult.outcome p.1 p.2), n, tr.diagnostic⟩
    | (Except.error e, n) => ⟨Except.error e, n, tr.diagnostic⟩
  else
    ⟨Except.ok (TaskResult.handle tr.job_id tr.job_code), 0, tr.diagnostic⟩

/-- The job-type enumeration `JobType` of `csa_common_lib` (external to the
analysed sources).  `SINGLE`, `MULTI_Y` and `MULTI_THETA` are the members
the analysed sources use; `OTHER` stands for any further member of the
external enumeration, i.e. any task-kind value outside the three that the
dispatch table covers. -/
inductive JobType where
  | SINGLE
  | MULTI_Y
  | MULTI_THETA
  | OTHER
deriving DecidableEq, BEq, Repr

/-- Identity tags for the three executor callables the dispatch table of
`src/api_client.py` stores: `single_tasks.predict`, `run_multi_theta` and
`run_multi_y`. -/
inductive ExecutorTag where
  | singleTasksPredict
  | runMultiTheta
  | runMultiY
deriving DecidableEq, Repr

/-- `_TASK_MAP` of `src/api_client.py` (lines 82-86), embedded as an
association list in source order. -/
def _TASK_MAP : List (JobType × ExecutorTag) :=
  [(JobType.SINGLE, ExecutorTag.singleTasksPredict),
   (JobType.MULTI_THETA, ExecutorTag.runMultiTheta),
   (JobType.MULTI_Y, ExecutorTag.runMultiY)]

/-- Python `_TASK_MAP.get(task_type)`: `None` on a lookup miss. -/
def taskMapGet (task_type : JobType) : Option ExecutorTag :=
  (_TASK_MAP.find? (fun p => p.1 == task_type)).map Prod.snd

/-- The call signature shared by the three executors as `predict_psr`
invokes them: `prediction_function(PSRFunction.PSR, y, X, theta, Options)`
returning `(yhat, yhat_details)`. -/
abbrev ExecFn :=
  PSRFunction → NDArray → NDArray → NDArray → POptions → List Int × Details

/-- Modelled from the spec: `determine_task_type` lives in
`csa_prediction_engine/helpers/_router.py`, which is not among the provided
sources (only its caller `src/api_client.py` is).  Following spec section
4.1 (ShapeClassifier): classification fails with `InvalidShapeError` when
the column count of `y` exceeds one while the row count of `theta` exceeds
one, when the row count of `X` differs from the row count of `y`, or when
the column count of `X` differs from the column count of `theta`; otherwise
the decision rule is evaluated in order — one `y` column and one `theta`
row give `SINGLE`, else more than one `y` column gives `MULTI_Y`, else more
than one `theta` row gives `MULTI_THETA`.  The spec leaves degenerate
zero-extent shapes unspecified; the model classifies them as invalid.  The
function reads only the shape metadata and takes no oracle: it can make no
network call. -/
def determine_task_type (y X theta : NDArray) : Except PyError JobType :=
  if y.cols > 1 ∧ theta.rows > 1 then Except.error PyError.invalidShapeError
  else if X.rows ≠ y.rows then Except.error PyError.invalidShapeError
  else if X.cols ≠ theta.cols then Except.error PyError.invalidShapeError
  else if y.cols = 1 ∧ theta.rows = 1 then Except.ok JobType.SINGLE
  else if y.cols > 1 then Except.ok JobType.MULTI_Y
  else if theta.rows > 1 then Except.ok JobType.MULTI_THETA
  else Except.error PyError.invalidShapeError

/-- The dispatch step of `predict_psr` in `src/api_client.py` (lines
137-139): `prediction_function = _TASK_MAP.get(task_type)` followed by the
call `prediction_function(f, y, X, theta, Options)`.  On a lookup miss the
Python code calls `None`, which raises `TypeError: NoneType object is not
callable` — embedded as `Except.error PyError.typeErrorNotCallable`.
`interp` gives the behaviour of the three executor callables. -/
def dispatch_prediction (interp : ExecutorTag → ExecFn) (task_type : JobType)
    (f : PSRFunction) (y X theta : NDArray) (Options : POptions) :
    Except PyError (List Int × Details) :=
  match taskMapGet task_type with
  | some tag => Except.ok (interp tag f y X theta Options)
  | none => Except.error PyError.typeErrorNotCallable

/-- `PredictionReceipt` of `csa_common_lib` as `predict_psr` constructs it:
the model family, the request tensors, the options bag, the produced
`yhat` and the elapsed wall-clock duration. -/
structure PredictionReceipt where
  model_type : PSRFunction
  y : NDArray
  X : NDArray
  theta : NDArray
  options : POptions
  yhat : List Int
  prediction_duration : Int
deriving DecidableEq, Repr

/-- The two return shapes of `api_client.predict_psr`: the plain
`(yhat, yhat_details)` pair, or the triple with the receipt appended. -/
inductive PsrReturn where
  | pair (yhat : List Int) (yhat_details : Details)
  | triple (yhat : List Int) (yhat_details : Details)
      (receipt : PredictionReceipt)
deriving DecidableEq, Repr

/-- `predict_psr` of `src/api_client.py` (lines 89-155): classify the
shapes, look the task kind up in `_TASK_MAP`, run the executor with family
`PSR`, and append a `PredictionReceipt` exactly when `is_return_receipt`
is set.  Wall-clock timing is effectful; the elapsed duration enters the
model as the `prediction_duration` argument (it is only stored in the
receipt). -/
def api_predict_psr (interp : ExecutorTag → ExecFn) (y X theta : NDArray)
    (Options : POptions) (is_return_receipt : Bool)
    (prediction_duration : Int) : Except PyError PsrReturn :=
  match determine_task_type y X theta with
  | Except.error e => Except.error e
  | Except.ok task_type =>
    match dispatch_prediction interp task_type PSRFunction.PSR y X theta Options with
    | Except.error e => Except.error e
    | Except.ok yd =>
      if is_return_receipt then
        Except.ok (PsrReturn.triple yd.1 yd.2
          ⟨PSRFunction.PSR, y, X, theta, Options, yd.1, prediction_duration⟩)
      else
        Except.ok (PsrReturn.pair yd.1 yd.2)

/-- The primary result of a `predict_psr` return value: its
`(yhat, yhat_details)` components. -/
def psrPrimary : PsrReturn → List Int × Details
  | PsrReturn.pair a b => (a, b)
  | PsrReturn.triple a b _ => (a, b)

/-- Whether a `predict_psr` return value carries a receipt. -/
def psrHasReceipt : PsrReturn → Bool
  | PsrReturn.pair _ _ => false
  | PsrReturn.triple _ _ _ => true

/-- Whether a completed `predict_psr` call carries a receipt (`false` for a
raised error). -/
def exceptHasReceipt : Except PyError PsrReturn → Bool
  | Except.ok v => psrHasReceipt v
  | Except.error _ => false

/-- Whether a `predict_psr` call returned normally. -/
def exceptIsOk : Except PyError PsrReturn → Bool
  | Except.ok _ => true
  | Except.error _ => false

/-- The top-level attributes of the postmaster module
(`src/helpers/_postmaster.py`): every name its import statements bind and
every function or constant it defines, in source order.  This is the
attribute set a Python `module.name` lookup consults. -/
def postmasterModuleAttrs : List String :=
  ["_get_apikeys", "post_job", "poll_for_results", "get_quota",
   "convert_ndarray_to_list", "PSRFunction", "PredictionOptions",
   "MaxFitOptions", "GridOptions", "Callable", "wraps",
   "_BINARY_FUNCTION_MAP", "_create_post_job_decorator",
   "_post_predict_inputs", "_post_maxfit_inputs", "_post_grid_inputs",
   "_post_grid_singularity_inputs", "_get_results", "_get_results_worker",
   "_get_quota"]

/-- The payload `psrlib.predict_grid` would hand to `_post_ckt_inputs`
(positionally: `y, X, theta, threshold_range, stepsize, most_eval,
eval_type, k, return_grid`).  `stepsize` is a float in Python; it is only
carried, never computed with, so it is embedded as an integer. -/
structure CktPayload where
  y : NDArray
  X : NDArray
  theta : NDArray
  threshold_range : Int × Int
  stepsize : Int
  most_eval : Bool
  eval_type : String
  k : Option Int
  return_grid : Bool
deriving DecidableEq, Repr

/-- `predict_grid` of `src/psrlib.py` (lines 142-205): its first statement
calls `csa_postmaster._post_ckt_inputs(...)`.  The attribute lookup on the
postmaster module (the claim's cited module, `src/helpers/_postmaster.py`)
is embedded as a membership test in `postmasterModuleAttrs`; a missing
attribute raises `AttributeError` before anything is submitted.  `submit`
stands for whatever callable the attribute would resolve to.  The two
`Nat`s count wire submissions and wire `poll_for_results` calls. -/
def psrlib_predict_grid
    (submit : CktPayload → Option Int × Option String)
    (poll_for_results : Int → String → Details)
    (y X theta : NDArray) (threshold_range : Int × Int) (stepsize : Int)
    (most_eval : Bool) (eval_type : String) (k : Option Int)
    (return_grid : Bool) (poll_results : Bool) :
    Except PyError TaskResult × Nat × Nat :=
  if "_post_ckt_inputs" ∈ postmasterModuleAttrs then
    let r := submit ⟨y, X, theta, threshold_range, stepsize, most_eval,
      eval_type, k, return_grid⟩
    if poll_results then
      match _get_results poll_for_results r.1 r.2 with
      | (Except.ok p, n) => (Except.ok (TaskResult.outcome p.1 p.2), 1, n)
      | (Except.error e, n) => (Except.error e, 1, n)
    else (Except.ok (TaskResult.handle r.1 r.2), 1, 0)
  else
    (Except.error PyError.attributeError, 0, 0)

/-- The payload `psrlib.predict_maxfit` hands to `_post_maxfit_inputs` —
exactly the keyword arguments of the call at lines 127-129 of
`src/psrlib.py`: `y`, `X`, `theta`, `most_eval`, `eval_type`, `cov_inv`.
The function's `threshold_range` and `stepsize` parameters appear nowhere
in this call. -/
structure MaxfitPayload where
  y : NDArray
  X : NDArray
  theta : NDArray
  most_eval : Bool
  eval_type : String
  cov_inv : Option NDArray
deriving DecidableEq, Repr

/-- `predict_maxfit` of `src/psrlib.py` (lines 85-139): submits the maxfit
job (forwarding only `y, X, theta, most_eval, eval_type, cov_inv`), then
either polls via `_get_results` or returns the handle.  The submission
callee lives in a module outside the provided sources and is abstracted as
the `submit` oracle; the run's result also reports the payload that was
submitted, so independence claims can speak about the wire content.
`threshold_range` and `stepsize` are accepted (as in the Python signature,
with the float `stepsize` embedded as an integer since it is never
computed with) but the body never reads them. -/
def psrlib_predict_maxfit
    (submit : MaxfitPayload → Option Int × Option String)
    (poll_for_results : Int → String → Details)
    (y X theta : NDArray) (threshold_range : Int × Int) (stepsize : Int)
    (most_eval : Bool) (eval_type : String) (cov_inv : Option NDArray)
    (poll_results : Bool) :
    (Except PyError TaskResult × Nat) × MaxfitPayload :=
  let payload : MaxfitPayload := ⟨y, X, theta, most_eval, eval_type, cov_inv⟩
  let r := submit payload
  if poll_results then
    match _get_results poll_for_results r.1 r.2 with
    | (Except.ok p, n) => ((Except.ok (TaskResult.outcome p.1 p.2), n), payload)
    | (Except.error e, n) => ((Except.error e, n), payload)
  else ((Except.ok (TaskResult.handle r.1 r.2), 0), payload)

example : selectFunctionType PSRFunction.PSR true = PSRFunction.PSR_BINARY := rfl

example : selectFunctionType PSRFunction.PREDICT true = PSRFunction.PREDICT := rfl

example : taskMapGet JobType.MULTI_Y = some ExecutorTag.runMultiY := rfl

/-- Claim C1 (counterexample to the claim as stated): on a handle whose
`job_id` is absent, `_get_results` does not fail with `InvalidHandleError`
— it returns normally with `(None, None)` and performs zero
`poll_for_results` calls, even against a server that would answer the
poll. -/
theorem get_results_absent_handle_counterexample :
    _get_results (fun _ _ => [("yhat", 7)]) none (some "abc")
      = (Except.ok (none, none), 0) := rfl

/-- Claim C1 (amended): for every handle whose `job_id` or `job_code` is
absent, `_get_results` performs zero network calls (`poll_for_results` is
never invoked) and returns `(None, None)` without raising any error. -/
theorem get_results_absent_handle :
    ∀ (poll : Int → String → Details) (jid : Option Int) (jc : Option String),
    _get_results poll none jc = (Except.ok (none, none), 0)
  ∧ _get_results poll jid none = (Except.ok (none, none), 0) := by
  intro poll jid jc
  exact ⟨by cases jc <;> rfl, by cases jid <;> rfl⟩

/-- Claim C2: when `is_binary` is not set the base family passes through
unchanged; when it is set, the four base families map to their binary
counterparts under `_BINARY_FUNCTION_MAP` and every other family passes
through unchanged; the four binary images are pairwise distinct, so the
mapping is a bijection from the four base families onto the four binary
tags. -/
theorem binary_function_map_spec :
    (∀ f : PSRFunction, selectFunctionType f false = f)
  ∧ selectFunctionType PSRFunction.PSR true = PSRFunction.PSR_BINARY
  ∧ selectFunctionType PSRFunction.MAXFIT true = PSRFunction.MAXFIT_BINARY
  ∧ selectFunctionType PSRFunction.GRID true = PSRFunction.GRID_BINARY
  ∧ selectFunctionType PSRFunction.GRID_SINGULARITY true
      = PSRFunction.GRID_SINGULARITY_BINARY
  ∧ (∀ f : PSRFunction, f ≠ PSRFunction.PSR → f ≠ PSRFunction.MAXFIT →
      f ≠ PSRFunction.GRID → f ≠ PSRFunction.GRID_SINGULARITY →
      selectFunctionType f true = f)
  ∧ ([PSRFunction.PSR_BINARY, PSRFunction.MAXFIT_BINARY,
      PSRFunction.GRID_BINARY, PSRFunction.GRID_SINGULARITY_BINARY] :
      List PSRFunction).Nodup := by
  refine ⟨fun f => rfl, rfl, rfl, rfl, rfl, ?_, by decide⟩
  intro f h1 h2 h3 h4
  cases f <;> first | rfl | simp_all

/-- Claim C3: the single-task executor with `poll_results` false returns
the `(job_id, job_code)` pair produced by the submission with zero wire
poll calls; with `poll_results` true it submits, then runs the polling
routine, and returns exactly the `(yhat, yhat_details)` pair (and poll-call
count) that `_get_results` produced. -/
theorem execute_prediction_spec :
    ∀ (jid : Option Int) (jc : Option String) (poll : Int → String → Details),
    _execute_prediction (fun _ => (jid, jc)) poll false
      = (Except.ok (TaskResult.handle jid jc), 0)
  ∧ _execute_prediction (fun _ => (jid, jc)) poll true
      = (Except.map (fun p => TaskResult.outcome p.1 p.2)
          (_get_results poll jid jc).1,
         (_get_results poll jid jc).2) := by
  intro jid jc poll
  exact ⟨rfl, by cases jid <;> cases jc <;> rfl⟩

/-- Claim C4 (counterexample to the claim as stated): looking a task kind
outside the three mapped kinds up in `_TASK_MAP` and dispatching yields the
`TypeError` of calling `None` — not `UnroutableTaskError`. -/
theorem task_map_unroutable_counterexample :
    taskMapGet JobType.OTHER = none
  ∧ dispatch_prediction (fun _ _ _ _ _ _ => ([], [])) JobType.OTHER
      PSRFunction.PSR ⟨0, 0, []⟩ ⟨0, 0, []⟩ ⟨0, 0, []⟩ ⟨[]⟩
      = Except.error PyError.typeErrorNotCallable := ⟨rfl, rfl⟩

/-- Claim C4 (amended): the dispatch table maps exactly the three task
kinds — `SINGLE` to the single-task predict, `MULTI_Y` to `run_multi_y`,
`MULTI_THETA` to `run_multi_theta` — and for any task kind whose lookup
misses (such as any kind outside the three), the dispatch fails by calling
`None`, i.e. with a `TypeError`, not with `UnroutableTaskError`. -/
theorem task_map_spec :
    taskMapGet JobType.SINGLE = some ExecutorTag.singleTasksPredict
  ∧ taskMapGet JobType.MULTI_Y = some ExecutorTag.runMultiY
  ∧ taskMapGet JobType.MULTI_THETA = some ExecutorTag.runMultiTheta
  ∧ _TASK_MAP.length = 3
  ∧ (∀ (interp : ExecutorTag → ExecFn) (t : JobType) (f : PSRFunction)
      (y X theta : NDArray) (O : POptions),
      taskMapGet t = none →
      dispatch_prediction interp t f y X theta O
        = Except.error PyError.typeErrorNotCallable)
  ∧ taskMapGet JobType.OTHER = none := by
  refine ⟨rfl, rfl, rfl, rfl, ?_, rfl⟩
  intro interp t f y X theta O h
  unfold dispatch_prediction
  rw [h]

/-- Claim C5: when the server response is present while both `job_id` and
`job_code` are absent, the submission wrapper returns `(None, None)` to
its caller and prints the diagnostic line (it raises nothing: the wrapper
is a total function); the diagnostic is printed in exactly that case.  The
wire oracle is instantiated with the constant answer `(resp, jid, jc)`,
which is fully general because the wrapper performs exactly one `post_job`
call. -/
theorem post_job_wrapper_diagnostic_spec :
    ∀ (resp : Option String) (jid : Option Int) (jc : Option String)
    (base : PSRFunction) (fname : String) (y X theta : NDArray)
    (O : POptions) (b : Bool),
    (postJobWrapper (fun _ _ => (resp, (jid, jc))) base fname y X theta O b).job_id
      = jid
  ∧ (postJobWrapper (fun _ _ => (resp, (jid, jc))) base fname y X theta O b).job_code
      = jc
  ∧ (resp ≠ none → jid = none → jc = none →
      (postJobWrapper (fun _ _ => (resp, (jid, jc))) base fname y X theta O b).diagnostic
        = some ("csanalytics:postmaster:_jobs:" ++ fname ++ ":" ++ resp.getD ""))
  ∧ (postJobWrapper (fun _ _ => (resp, (jid, jc))) base fname y X theta O b).diagnostic.isSome
      = (resp.isSome && jid.isNone && jc.isNone) := by
  intro resp jid jc base fname y X theta O b
  cases resp <;> cases jid <;> cases jc <;> simp [postJobWrapper]

/-- Claim C6 (counterexample to the claim as stated): a request whose `y`
has exactly one column and whose `theta` has exactly one row is not always
classified `Single` — with `X` of mismatched row count the classifier
fails with `InvalidShapeError` (spec section 4.1's dimension checks). -/
theorem determine_task_type_mismatch_counterexample :
    (NDArray.mk 3 1 []).cols = 1
  ∧ (NDArray.mk 1 1 []).rows = 1
  ∧ determine_task_type ⟨3, 1, []⟩ ⟨2, 1, []⟩ ⟨1, 1, []⟩
      = Except.error PyError.invalidShapeError := ⟨rfl, rfl, rfl⟩

/-- Claim C6 (amended): classification is a pure function of the three
shapes (the data buffers never influence it); a request where `y` has more
than one column and `theta` has more than one row always fails with
`InvalidShapeError` (and the classifier makes no network call: it takes no
transport oracle at all); and whenever the dimension-compatibility checks
pass (`X` has as many rows as `y` and as many columns as `theta`), the
rule is evaluated in order — one `y` column and one `theta` row give
`Single`, else more than one `y` column gives `MultiY`, else more than one
`theta` row gives `MultiTheta`. -/
theorem determine_task_type_spec : ∀ y X theta : NDArray,
    (y.cols > 1 → theta.rows > 1 →
      determine_task_type y X theta = Except.error PyError.invalidShapeError)
  ∧ (X.rows = y.rows → X.cols = theta.cols →
      ((y.cols = 1 ∧ theta.rows = 1 →
          determine_task_type y X theta = Except.ok JobType.SINGLE)
     ∧ (y.cols > 1 → theta.rows ≤ 1 →
          determine_task_type y X theta = Except.ok JobType.MULTI_Y)
     ∧ (y.cols ≤ 1 → theta.rows > 1 →
          determine_task_type y X theta = Except.ok JobType.MULTI_THETA)))
  ∧ (∀ d1 d2 d3 : List Int,
      determine_task_type ⟨y.rows, y.cols, d1⟩ ⟨X.rows, X.cols, d2⟩
          ⟨theta.rows, theta.cols, d3⟩
        = determine_task_type y X theta) := by
  intro y X theta
  refine ⟨?_, ?_, fun d1 d2 d3 => rfl⟩
  · intro h1 h2
    unfold determine_task_type
    rw [if_pos ⟨h1, h2⟩]
  · intro hr hc
    refine ⟨?_, ?_, ?_⟩ <;>
      [rintro ⟨hy, ht⟩; intro hy ht; intro hy ht] <;>
      unfold determine_task_type <;>
      split_ifs <;> first | rfl | omega

/-- Claim C7: the batch `predict_grid` and `predict_grid_singularity` of
`src/bin/multi_tasks.py` are extensionally equal — same wire submission
(both through `_post_grid_inputs`, hence family GRID), same diagnostic
behaviour, same polling, same returned value, on every input. -/
theorem multi_grid_singularity_extensional_eq :
    ∀ (post_job : PSRFunction → SubmitPayload →
        Option String × (Option Int × Option String))
    (poll : Int → String → Details) (y X theta : NDArray)
    (O : POptions) (pr : Bool),
    multi_predict_grid post_job poll y X theta O pr
      = multi_predict_grid_singularity post_job poll y X theta O pr := by
  intros
  rfl

/-- Claim C8: the primary `(yhat, yhat_details)` result of
`api_client.predict_psr` is unchanged by the receipt option — the call
with `is_return_receipt` true has the same primary components (and the
same error, if any) as the call with it false — and a receipt is present
exactly on the normally-returning receipt-requesting calls and never on a
call with the flag unset. -/
theorem predict_psr_receipt_invariance :
    ∀ (interp : ExecutorTag → ExecFn) (y X theta : NDArray) (O : POptions)
    (d : Int),
    Except.map psrPrimary (api_predict_psr interp y X theta O true d)
      = Except.map psrPrimary (api_predict_psr interp y X theta O false d)
  ∧ exceptHasReceipt (api_predict_psr interp y X theta O false d) = false
  ∧ exceptHasReceipt (api_predict_psr interp y X theta O true d)
      = exceptIsOk (api_predict_psr interp y X theta O true d) := by
  intro interp y X theta O d
  unfold api_predict_psr
  cases determine_task_type y X theta with
  | error e => exact ⟨rfl, rfl, rfl⟩
  | ok t =>
    dsimp only
    cases dispatch_prediction interp t PSRFunction.PSR y X theta O with
    | error e => exact ⟨rfl, rfl, rfl⟩
    | ok yd => exact ⟨rfl, rfl, rfl⟩

/-- Claim C9: `psrlib.predict_grid` fails on every input before any job is
submitted — the attribute `_post_ckt_inputs` it invokes is not among the
postmaster module's attributes, so the call raises `AttributeError` with
zero wire submissions and zero wire polls. -/
theorem psrlib_predict_grid_attribute_error :
    ∀ (submit : CktPayload → Option Int × Option String)
    (poll : Int → String → Details) (y X theta : NDArray)
    (threshold_range : Int × Int) (stepsize : Int) (most_eval : Bool)
    (eval_type : String) (k : Option Int) (return_grid : Bool)
    (poll_results : Bool),
    psrlib_predict_grid submit poll y X theta threshold_range stepsize
        most_eval eval_type k return_grid poll_results
      = (Except.error PyError.attributeError, 0, 0) := by
  intros
  rfl

/-- Claim C10: the result of `psrlib.predict_maxfit` is independent of its
`threshold_range` and `stepsize` arguments — two calls agreeing on
everything else produce the identical submitted payload and the identical
returned value, because neither argument is forwarded to the submission. -/
theorem psrlib_maxfit_threshold_stepsize_independent :
    ∀ (submit : MaxfitPayload → Option Int × Option String)
    (poll : Int → String → Details) (y X theta : NDArray)
    (tr1 tr2 : Int × Int) (ss1 ss2 : Int) (most_eval : Bool)
    (eval_type : String) (cov_inv : Option NDArray) (poll_results : Bool),
    psrlib_predict_maxfit submit poll y X theta tr1 ss1 most_eval eval_type
        cov_inv poll_results
      = psrlib_predict_maxfit submit poll y X theta tr2 ss2 most_eval
        eval_type cov_inv poll_results := by
  intros
  rfl

end CsaPredictionEngine
